import Mathlib

/-!
Verification of the jamify-websocket presence-and-room routing engine.

The Redis-backed state is modelled as a typed store of association lists, one
per persisted key pattern (`user:{id}:connections`, `socket:{id}:user`,
`user:{id}:rooms`, `room:{id}:users`, `room:{id}`).  Every service method of
`RedisService`, `RoomService`, `WebSocketService`, `QueueService` and
`QueueMessageHandlers` that the claims touch is translated as a pure function
on this store (asynchronous store calls always succeed in the model; the
services only rethrow store errors, which are out of scope here).
-/

set_option autoImplicit false

namespace Jamify

/-- One member of a `user:{id}:connections` Redis set, i.e. the record
serialized by `RedisService.addUserConnection` (`{socketId, serverId,
timestamp}`).  Set membership in Redis compares serialized JSON strings;
the serialization of this record is injective, so set-member equality is
record equality. -/
structure UserConnection where
  socketId : String
  serverId : String
  timestamp : Nat
deriving DecidableEq, Repr

/-- The `RoomType` enum.  Modelled from the spec: the file
`room-type.enum.ts` is absent from `src/` (it is only imported); the spec's
end-to-end scenario fixes the private room id shape as
`private-room_alice_bob`, so the enum's string values are `private`,
`event`, `jam`. -/
inductive RoomType where
  | PRIVATE
  | EVENT
  | JAM
deriving DecidableEq, Repr

def RoomType.str : RoomType → String
  | .PRIVATE => "private"
  | .EVENT => "event"
  | .JAM => "jam"

/-- `RoomPrefix.PRIVATE`, i.e. the template `RoomType.PRIVATE ++ "-room_"`. -/
def roomPrefixPrivate : String := RoomType.PRIVATE.str ++ "-room_"

/-- `RoomPrefix.EVENT`. -/
def roomPrefixEvent : String := RoomType.EVENT.str ++ "-room_"

/-- `RoomPrefix.JAM`. -/
def roomPrefixJam : String := RoomType.JAM.str ++ "-room_"

/-- The `Room` class (`id`, `type`, `metadata`); metadata values are modelled
as strings (the code treats them as an opaque key-value record). -/
structure Room where
  id : String
  type : RoomType
  metadata : List (String × String)
deriving DecidableEq, Repr

/-- Association-list lookup (a Redis key read). -/
def lookupA {α : Type} : List (String × α) → String → Option α
  | [], _ => none
  | (k, v) :: rest, key => if k = key then some v else lookupA rest key

/-- Association-list write (Redis `SET`: overwrite or create). -/
def setA {α : Type} : List (String × α) → String → α → List (String × α)
  | [], key, v => [(key, v)]
  | (k, w) :: rest, key, v =>
      if k = key then (k, v) :: rest else (k, w) :: setA rest key v

/-- Association-list delete (Redis `DEL`). -/
def delA {α : Type} (l : List (String × α)) (key : String) : List (String × α) :=
  l.filter (fun p => decide (p.1 ≠ key))

/-- Redis `SADD` on one set value: add the member if not already present. -/
def saddL {α : Type} [DecidableEq α] (l : List α) (x : α) : List α :=
  if x ∈ l then l else l ++ [x]

/-- Redis `SADD` at a key: create the set if the key is absent. -/
def saddA {α : Type} [DecidableEq α] (m : List (String × List α)) (key : String)
    (x : α) : List (String × List α) :=
  match lookupA m key with
  | some l => setA m key (saddL l x)
  | none => m ++ [(key, [x])]

/-- Redis `SREM` at a key: remove the member wherever the key is present;
no-op when the key is absent. -/
def sremA {α : Type} [DecidableEq α] (m : List (String × List α)) (key : String)
    (x : α) : List (String × List α) :=
  m.map (fun p => if p.1 = key then (p.1, p.2.filter (fun y => decide (y ≠ x))) else p)

/-- The Redis keyspace used by the service, split by key pattern.  An entry
whose value is the empty list represents an absent key (Redis deletes empty
sets), which `allKeys` below accounts for. -/
structure RedisStore where
  userConnections : List (String × List UserConnection)
  socketUser : List (String × String)
  userRooms : List (String × List String)
  roomUsers : List (String × List String)
  rooms : List (String × Room)
deriving DecidableEq, Repr

def emptyStore : RedisStore := ⟨[], [], [], [], []⟩

/-- All keys present in the store, as the literal Redis key strings; used to
model `redis.exists` and `redis.keys` faithfully (both operate on the whole
keyspace, so pattern collisions across key families are representable). -/
def allKeys (S : RedisStore) : List String :=
  ((S.userConnections.filter (fun p => !p.2.isEmpty)).map
      (fun p => "user:" ++ p.1 ++ ":connections"))
  ++ (S.socketUser.map (fun p => "socket:" ++ p.1 ++ ":user"))
  ++ ((S.userRooms.filter (fun p => !p.2.isEmpty)).map
      (fun p => "user:" ++ p.1 ++ ":rooms"))
  ++ ((S.roomUsers.filter (fun p => !p.2.isEmpty)).map
      (fun p => "room:" ++ p.1 ++ ":users"))
  ++ (S.rooms.map (fun p => "room:" ++ p.1))

/-- Redis `EXISTS key`. -/
def redisExists (S : RedisStore) (key : String) : Bool :=
  (allKeys S).any (fun k => decide (k = key))

/-- `RedisService.getUserIdFromSocket`: `GET socket:{socketId}:user`. -/
def getUserIdFromSocket (S : RedisStore) (socketId : String) : Option String :=
  lookupA S.socketUser socketId

/-- `RedisService.getAllUserConnections`: `SMEMBERS user:{userId}:connections`. -/
def getAllUserConnections (S : RedisStore) (userId : String) : List UserConnection :=
  (lookupA S.userConnections userId).getD []

/-- `RedisService.getUserConnection`: the member of the user's connection set
with the given socketId (the code uses `Array.find` on the parsed members). -/
def getUserConnection (S : RedisStore) (userId socketId : String) :
    Option UserConnection :=
  (getAllUserConnections S userId).find? (fun conn => decide (conn.socketId = socketId))

/-- `RedisService.addUserConnection`.  The code builds
`connectionData = {socketId, serverId, timestamp: Date.now()}`, reads the old
owner of the socket from the reverse index, then in one MULTI: `SREM`s
`JSON.stringify({...connectionData, socketId})` — which re-serializes the NEW
record (`{...connectionData, socketId}` is the same object, so the removed
member carries the fresh timestamp) — from the old owner's set, `SADD`s the
new record to the new owner's set, and `SET`s the reverse index. -/
def addUserConnection (S : RedisStore) (userId socketId serverId : String)
    (now : Nat) : RedisStore :=
  let connectionData : UserConnection := ⟨socketId, serverId, now⟩
  let S1 := match getUserIdFromSocket S socketId with
    | some oldUserId =>
        { S with userConnections := sremA S.userConnections oldUserId connectionData }
    | none => S
  let S2 := { S1 with userConnections := saddA S1.userConnections userId connectionData }
  { S2 with socketUser := setA S2.socketUser socketId userId }

/-- The result of `connections.sort((a, b) => b.timestamp - a.timestamp)[0]`:
the member with the largest timestamp, the earliest listed one on ties
(JS `Array.sort` is stable). -/
def latestConnection : List UserConnection → Option UserConnection
  | [] => none
  | c :: cs =>
    match latestConnection cs with
    | none => some c
    | some b => if b.timestamp > c.timestamp then some b else some c

/-- `RedisService.getSocketFromUserId`: socketId of the most recent
connection; the code returns `latestConnection?.socketId || null`, so an
empty socketId string (falsy) also yields null. -/
def getSocketFromUserId (S : RedisStore) (userId : String) : Option String :=
  match latestConnection (getAllUserConnections S userId) with
  | none => none
  | some c => if c.socketId = "" then none else some c.socketId

/-- `RedisService.removeUserConnection`.  If the connection is found in the
user's set, it is `SREM`ed and its reverse index deleted; then — in every
case — the code resolves `getSocketFromUserId(userId)` on the updated store
and deletes that socket's reverse-index entry as well. -/
def removeUserConnection (S : RedisStore) (userId socketId : String) : RedisStore :=
  let S1 := match getUserConnection S userId socketId with
    | some conn =>
        { S with
          userConnections := sremA S.userConnections userId conn,
          socketUser := delA S.socketUser socketId }
    | none => S
  match getSocketFromUserId S1 userId with
  | some socket => { S1 with socketUser := delA S1.socketUser socket }
  | none => S1

/-- Is the needle a prefix of the haystack (on character lists)? -/
def isPrefixL : List Char → List Char → Bool
  | [], _ => true
  | _ :: _, [] => false
  | p :: ps, c :: cs => p == c && isPrefixL ps cs

/-- Does the Redis glob `user:*{userId}*:rooms` match `key`?  True exactly
when `key = "user:" ++ A ++ userId ++ B ++ ":rooms"` for some (possibly
empty) `A`, `B`: the key starts with `user:`, ends with `:rooms`, and
`userId` occurs at some position at or after 5 ending at or before
`length - 6`. -/
def keyMatchesUserRoomsGlob (userId key : String) : Bool :=
  let k := key.toList
  let n := userId.toList
  isPrefixL ("user:".toList) k
    && isPrefixL (":rooms".toList.reverse) k.reverse
    && (List.range (k.length + 1)).any (fun i =>
        decide (5 ≤ i) && decide (i + n.length + 6 ≤ k.length)
          && isPrefixL n (k.drop i))

/-- `key.split(":")[1]` (JS): the segment between the first and second
colon; modelled as `""` when there is no such segment. -/
def splitSecondSegment (key : String) : String :=
  ((key.splitOn ":").drop 1).headD ""

/-- `RedisService.getUserRooms`.  The code does NOT read the user's
`user:{userId}:rooms` set; it runs `KEYS user:*{userId}*:rooms` and maps
each matching key to `key.split(":")[1]` (then `flat()`, a no-op on a string
array). -/
def getUserRooms (S : RedisStore) (userId : String) : List String :=
  let keys := (allKeys S).filter (keyMatchesUserRoomsGlob userId)
  keys.map splitSecondSegment

/-- `RedisService.addUserToRoom(userId, roomId)`:
`SADD user:{userId}:rooms roomId`.  Note the parameter order: userId first. -/
def redisAddUserToRoom (S : RedisStore) (userId roomId : String) : RedisStore :=
  { S with userRooms := saddA S.userRooms userId roomId }

/-- `RedisService.removeUserFromRoom(userId, roomId)`:
`SREM user:{userId}:rooms roomId`. -/
def redisRemoveUserFromRoom (S : RedisStore) (userId roomId : String) : RedisStore :=
  { S with userRooms := sremA S.userRooms userId roomId }

/-- `RedisService.getRoomUsers`: `SMEMBERS room:{roomId}:users`. -/
def getRoomUsers (S : RedisStore) (roomId : String) : List String :=
  (lookupA S.roomUsers roomId).getD []

/-- `RedisService.saveRoom`: `SET room:{room.id} JSON.stringify(room)`. -/
def saveRoom (S : RedisStore) (room : Room) : RedisStore :=
  { S with rooms := setA S.rooms room.id room }

/-- `RedisService.getRoom`: `GET room:{roomId}`. -/
def getRoom (S : RedisStore) (roomId : String) : Option Room :=
  lookupA S.rooms roomId

/-- `RedisService.roomExistsById`: `EXISTS room:{roomId}`. -/
def roomExistsById (S : RedisStore) (roomId : String) : Bool :=
  redisExists S ("room:" ++ roomId)

/-- `RedisService.userExistsById`: `EXISTS user:{userId}` — the plain key
`user:{userId}`, not the `user:{userId}:connections` set. -/
def userExistsById (S : RedisStore) (userId : String) : Bool :=
  redisExists S ("user:" ++ userId)

/-- The socket.io server state visible to the service: which sockets are
connected (`io.sockets.sockets`, keyed by socket id) and which rooms each
socket has joined (`socket.join`). -/
structure IoServer where
  connectedSockets : List String
  socketRooms : List (String × List String)
deriving DecidableEq, Repr

def ioInit : IoServer := ⟨[], []⟩

/-- `socket.join(roomId)`: idempotent group join. -/
def joinRoom (io : IoServer) (socketId roomId : String) : IoServer :=
  { io with socketRooms := saddA io.socketRooms socketId roomId }

/-- Rooms the given socket has joined. -/
def socketJoinedRooms (io : IoServer) (socketId : String) : List String :=
  (lookupA io.socketRooms socketId).getD []

/-- `WebSocketService.addUserToRoom(roomId, userId)`.  Requires the room to
exist, else throws; then looks up `io.sockets.sockets.get(userId)` — the
socket keyed by the USER id — and joins it if connected, otherwise logs a
warning and returns. -/
def wsAddUserToRoom (S : RedisStore) (io : IoServer) (roomId userId : String) :
    Except String IoServer :=
  if roomExistsById S roomId then
    if io.connectedSockets.any (fun s => decide (s = userId)) then
      .ok (joinRoom io userId roomId)
    else
      .ok io
  else
    .error ("Room " ++ roomId ++ " does not exist")

/-- `WebSocketService.handleUserRooms`: fetch `getUserRooms(userId)` and,
for each returned roomId independently, join the socket when
`roomExistsById(roomId)` holds and skip (with a warning) otherwise; the
whole loop is wrapped in a catch, so no failure escapes to the caller. -/
def handleUserRooms (S : RedisStore) (io : IoServer) (socketId userId : String) :
    IoServer :=
  let userRooms := getUserRooms S userId
  userRooms.foldl
    (fun acc roomId => if roomExistsById S roomId then joinRoom acc socketId roomId else acc)
    io

/-- The `register` event handling inside
`WebSocketService.handleConnection`: `addUserConnection(userId, socket.id,
serverId)` followed by `handleUserRooms(socket, userId)`. -/
def handleRegister (S : RedisStore) (io : IoServer) (socketId userId serverId : String)
    (now : Nat) : RedisStore × IoServer :=
  let S2 := addUserConnection S userId socketId serverId now
  (S2, handleUserRooms S2 io socketId userId)

/-- One `emit` performed through the transport layer. -/
structure Emit where
  room : String
  event : String
deriving DecidableEq, Repr

/-- `WebSocketService.broadcastToRoom(roomId, event, data)`: requires
non-empty roomId and event, then requires the room to exist, then emits to
the room's group. -/
def wsBroadcastToRoom (S : RedisStore) (roomId event : String) :
    Except String (List Emit) :=
  if roomId = "" ∨ event = "" then
    .error "Room ID and event name are required to broadcast message"
  else if roomExistsById S roomId then
    .ok [⟨roomId, event⟩]
  else
    .error ("Room " ++ roomId ++ " does not exist")

/-- `RoomService.createRoom(type, roomId, metadata)`: unconditionally
constructs `new Room(roomId, type, metadata)` (the constructor defaults an
absent metadata to `{}`), saves it with `saveRoom` (a plain overwriting
`SET`), and returns the fresh record. -/
def createRoom (S : RedisStore) (type : RoomType) (roomId : String)
    (metadata : Option (List (String × String))) : RedisStore × Room :=
  let room : Room := ⟨roomId, type, metadata.getD []⟩
  (saveRoom S room, room)

/-- Strict lexicographic comparison of character lists, the comparison JS
`Array.prototype.sort`'s default comparator applies to strings (code-unit
order; it agrees with codepoint order on basic-plane strings). -/
def charListLt : List Char → List Char → Bool
  | _, [] => false
  | [], _ :: _ => true
  | a :: as, b :: bs => decide (a < b) || (decide (a = b) && charListLt as bs)

/-- JS string comparison `a < b`. -/
def strLtJS (a b : String) : Bool := charListLt a.toList b.toList

/-- `[user1Id, user2Id].sort()`: the stable two-element sort keeps the
original order unless the second element compares strictly below the
first. -/
def jsSortPair (a b : String) : List String :=
  if strLtJS b a then [b, a] else [a, b]

/-- JS `Array.prototype.join('_')` on a string array. -/
def joinUnderscore : List String → String
  | [] => ""
  | [x] => x
  | x :: y :: rest => x ++ "_" ++ joinUnderscore (y :: rest)

def generatePrivateRoomId (user1Id user2Id : String) : String :=
  roomPrefixPrivate ++ joinUnderscore (jsSortPair user1Id user2Id)

/-- `RoomService.createPrivateRoom`. -/
def createPrivateRoom (S : RedisStore) (user1Id user2Id : String)
    (metadata : Option (List (String × String))) : RedisStore × Room :=
  createRoom S RoomType.PRIVATE (generatePrivateRoomId user1Id user2Id) metadata

/-- `RoomService.createEventRoom`. -/
def createEventRoom (S : RedisStore) (eventId : String)
    (metadata : Option (List (String × String))) : RedisStore × Room :=
  createRoom S RoomType.EVENT (roomPrefixEvent ++ eventId) metadata

/-- `RoomService.addUserToRoom(roomId, userId)`: first
`webSocketService.addUserToRoom(roomId, userId)` (whose failure aborts the
whole operation), then `redisService.addUserToRoom(roomId, userId)` — note
that `RedisService.addUserToRoom` declares `(userId, roomId)`, so the
roomId is passed in the userId position and vice versa. -/
def roomServiceAddUserToRoom (S : RedisStore) (io : IoServer)
    (roomId userId : String) : Except String (RedisStore × IoServer) :=
  match wsAddUserToRoom S io roomId userId with
  | .error e => .error e
  | .ok io2 => .ok (redisAddUserToRoom S roomId userId, io2)

/-- Outcome of `message.readString('utf-8', ...)`: an error (or missing
body) or a body string. -/
inductive ReadResult where
  | failed
  | ok (body : String)
deriving DecidableEq, Repr

inductive AckDecision where
  | ack
  | nack
deriving DecidableEq, Repr

/-- The per-message callback installed by `QueueService.subscribeToQueue`
(with `ack: 'client-individual'`).  A read error or falsy body is nacked;
then inside one try/catch the body is JSON-parsed (parse failure is caught
and nacked) and the handler awaited: resolution acks, rejection is caught
and nacked.  Every ack/nack is guarded by `if (this.subscribeClient)`, so
with no subscribe client no decision is sent. -/
def onQueueMessage {J E D : Type} (clientPresent : Bool) (read : ReadResult)
    (parseJson : String → Option J) (handler : J → Except E D) :
    Option AckDecision :=
  let emit := fun (d : AckDecision) => if clientPresent then some d else none
  match read with
  | .failed => emit .nack
  | .ok body =>
    if body = "" then emit .nack
    else
      match parseJson body with
      | none => emit .nack
      | some m =>
        match handler m with
        | .ok _ => emit .ack
        | .error _ => emit .nack

/-- The subscription processes each delivered message with the same
per-message callback. -/
def processQueue {J E D : Type} (clientPresent : Bool)
    (parseJson : String → Option J) (handler : J → Except E D)
    (reads : List ReadResult) : List (Option AckDecision) :=
  reads.map (fun r => onQueueMessage clientPresent r parseJson handler)

/-- The `ChatMessage` envelope interface. -/
structure ChatMessage where
  id : String
  senderId : String
  content : String
  destId : Option String
  roomId : Option String
  timestamp : Option String
  metadata : Option (List (String × String))
deriving DecidableEq, Repr

/-- JS falsiness of an optional string field: absent or empty. -/
def optFalsy : Option String → Bool
  | none => true
  | some s => s.isEmpty

/-- `QueueMessageHandlers.handleChatMessage`: if `!message.roomId`, log an
error and return (successfully) without any delivery; otherwise broadcast
to the room on the configured message channel, rethrowing broadcast
failures. -/
def handleChatMessage (S : RedisStore) (channel : String) (message : ChatMessage) :
    Except String (List Emit) :=
  if optFalsy message.roomId then .ok []
  else wsBroadcastToRoom S (message.roomId.getD "") channel

/-! Concrete stores used by the counterexample and failing-input theorems. -/

/-- Two registrations of the same connection id under different users, at
different instants. -/
def c1Store : RedisStore :=
  addUserConnection (addUserConnection emptyStore "u1" "c" "p" 0) "u2" "c" "p" 1

/-- One registered connection for user `alice`. -/
def c4Store : RedisStore := addUserConnection emptyStore "alice" "s1" "p" 0

/-- One registered connection `c1` for user `a`. -/
def c6Store : RedisStore := addUserConnection emptyStore "a" "c1" "p" 1

/-- An existing event room (saved by `createEventRoom`) to which member
`alice` is added through `RoomService.addUserToRoom`. -/
def roomWithAlice : Except String (RedisStore × IoServer) :=
  roomServiceAddUserToRoom ((createEventRoom emptyStore "x" none).1) ioInit
    "event-room_x" "alice"

/-- A store holding the private room `r` created with metadata `k ↦ 1`. -/
def c3StoreOnce : RedisStore :=
  (createRoom emptyStore RoomType.PRIVATE "r" (some [("k", "1")])).1

/-- A second `createRoom` for the same id with metadata `k ↦ 2`. -/
def c3Twice : RedisStore × Room :=
  createRoom c3StoreOnce RoomType.PRIVATE "r" (some [("k", "2")])

/-- User `alice` holds the live connection `sock1` and the room
`event-room_x` exists. -/
def c5Store : RedisStore :=
  (createRoom (addUserConnection emptyStore "alice" "sock1" "p" 5) RoomType.EVENT
    "event-room_x" none).1

/-- The transport layer has the socket `sock1` connected and no group
memberships yet. -/
def ioC5 : IoServer := ⟨["sock1"], []⟩

/-- A chat envelope with a destination user but no roomId. -/
def msgNoRoom : ChatMessage := ⟨"m1", "alice", "hi", some "bob", none, none, none⟩

/-- A parse function recognizing exactly one raw payload as `msgNoRoom`. -/
def parseNoRoom : String → Option ChatMessage :=
  fun s => if s = "m" then some msgNoRoom else none

/-- A parse function for the queue-dispatch witness. -/
def wParse : String → Option Nat := fun s => if s = "good" then some 0 else none

/-- A handler for the queue-dispatch witness. -/
def wHandler : Nat → Except String Unit :=
  fun n => if n = 0 then .ok () else .error "boom"

/-! Helper lemmas about the association-list primitives. -/

theorem lookupA_setA_self {α : Type} (l : List (String × α)) (k : String) (v : α) :
    lookupA (setA l k v) k = some v := by
  induction l with
  | nil => simp [setA, lookupA]
  | cons p rest ih =>
    obtain ⟨a, b⟩ := p
    by_cases h : a = k <;> simp [setA, h, lookupA, ih]

theorem lookupA_setA_ne {α : Type} (l : List (String × α)) (k t : String) (v : α)
    (h : t ≠ k) : lookupA (setA l k v) t = lookupA l t := by
  induction l with
  | nil => simp [setA, lookupA, Ne.symm h]
  | cons p rest ih =>
    obtain ⟨a, b⟩ := p
    by_cases ha : a = k
    · subst ha
      simp [setA, lookupA, Ne.symm h]
    · simp [setA, ha, lookupA, ih]

theorem lookupA_append {α : Type} (l1 l2 : List (String × α)) (k : String) :
    lookupA (l1 ++ l2) k =
      (match lookupA l1 k with
       | some v => some v
       | none => lookupA l2 k) := by
  induction l1 with
  | nil => simp [lookupA]
  | cons p rest ih =>
    obtain ⟨a, b⟩ := p
    by_cases h : a = k <;> simp [lookupA, h, ih]

theorem any_eq_mem (l : List String) (x : String) :
    l.any (fun s => decide (s = x)) = true ↔ x ∈ l := by
  simp [List.any_eq_true]

theorem socketJoinedRooms_joinRoom_self (io : IoServer) (s r : String) :
    socketJoinedRooms (joinRoom io s r) s = saddL (socketJoinedRooms io s) r := by
  unfold socketJoinedRooms joinRoom saddA
  cases h : lookupA io.socketRooms s with
  | none => simp [h, lookupA_append, lookupA, saddL]
  | some l => simp [h, lookupA_setA_self]

theorem socketJoinedRooms_joinRoom_ne (io : IoServer) (s r t : String) (h : t ≠ s) :
    socketJoinedRooms (joinRoom io s r) t = socketJoinedRooms io t := by
  unfold socketJoinedRooms joinRoom saddA
  cases hl : lookupA io.socketRooms s with
  | none =>
    rw [lookupA_append]
    cases hx : lookupA io.socketRooms t <;>
      simp [hx, lookupA, Ne.symm h]
  | some l => rw [lookupA_setA_ne _ _ _ _ h]

theorem charListLt_asymm : ∀ (x y : List Char),
    charListLt x y = true → charListLt y x = false
  | x, [] => by intro h; cases x <;> simp [charListLt] at h
  | [], _ :: _ => by intro _; simp [charListLt]
  | a :: as, b :: bs => by
    intro h
    rw [Bool.eq_false_iff]
    intro hc
    simp only [charListLt, Bool.or_eq_true, decide_eq_true_eq, Bool.and_eq_true] at h hc
    rcases h with h1 | ⟨h2, h3⟩
    · rcases hc with hc1 | ⟨hc2, _⟩
      · exact lt_asymm h1 hc1
      · subst hc2; exact lt_irrefl _ h1
    · rcases hc with hc1 | ⟨_, hc3⟩
      · subst h2; exact lt_irrefl _ hc1
      · rw [charListLt_asymm as bs h3] at hc3
        exact Bool.false_ne_true hc3

theorem charListLt_conn : ∀ (x y : List Char),
    charListLt x y = false → charListLt y x = false → x = y
  | [], [], _, _ => rfl
  | [], _ :: _, h1, _ => by simp [charListLt] at h1
  | _ :: _, [], _, h2 => by simp [charListLt] at h2
  | a :: as, b :: bs, h1, h2 => by
    simp only [charListLt, Bool.or_eq_false_iff, decide_eq_false_iff_not,
      Bool.and_eq_false_iff] at h1 h2
    obtain ⟨hab, hrest1⟩ := h1
    obtain ⟨hba, hrest2⟩ := h2
    have hEq : a = b := le_antisymm (le_of_not_lt hba) (le_of_not_lt hab)
    subst hEq
    have t1 : charListLt as bs = false := by
      rcases hrest1 with hd | ht
      · simp at hd
      · exact ht
    have t2 : charListLt bs as = false := by
      rcases hrest2 with hd | ht
      · simp at hd
      · exact ht
    rw [charListLt_conn as bs t1 t2]

theorem processQueue_get {J E D : Type} (clientPresent : Bool)
    (parseJson : String → Option J) (handler : J → Except E D) :
    ∀ (reads : List ReadResult) (i : Nat) (hi : i < reads.length)
      (hj : i < (processQueue clientPresent parseJson handler reads).length),
      (processQueue clientPresent parseJson handler reads).get ⟨i, hj⟩
        = onQueueMessage clientPresent (reads.get ⟨i, hi⟩) parseJson handler
  | [], i, hi, _ => absurd hi (Nat.not_lt_zero i)
  | _ :: _, 0, _, _ => rfl
  | _ :: rest, n + 1, hi, hj =>
      processQueue_get clientPresent parseJson handler rest n
        (Nat.lt_of_succ_lt_succ hi) (Nat.lt_of_succ_lt_succ hj)

/-! The claims. -/

/-- C1: the rebinding invariant fails on the code.  After
`register("u1","c","p")` at instant 0 and `register("u2","c","p")` at
instant 1, `resolveUser("c")` does return `u2`, but `listConnections("u1")`
still contains a connection with socketId `c`: the `SREM` issued by
`addUserConnection` removes the re-serialized NEW connection record (fresh
timestamp), not the stored old one, so the prior binding survives whenever
the two serializations differ. -/
theorem addUserConnection_rebinding_bug :
    getUserIdFromSocket c1Store "c" = some "u2"
    ∧ (getAllUserConnections c1Store "u1").map (fun conn => conn.socketId) = ["c"] :=
  ⟨rfl, rfl⟩

/-- C2: room membership is not queryable in both directions.  After
creating `event-room_x` and calling `RoomService.addUserToRoom("event-room_x",
"alice")` (which succeeds), `getRoomUsers("event-room_x")` is empty — the
call forwards its arguments to `RedisService.addUserToRoom(userId, roomId)`
in swapped order, so the membership record lands in
`user:event-room_x:rooms` (third conjunct) and nothing ever writes
`room:{roomId}:users`; `getUserRooms("alice")` is empty as well, since its
key-name scan only matches keys containing the userId. -/
theorem roomMembership_not_bidirectional :
    roomWithAlice.toOption.map (fun p => getRoomUsers p.1 "event-room_x") = some []
    ∧ roomWithAlice.toOption.map (fun p => getUserRooms p.1 "alice") = some []
    ∧ roomWithAlice.toOption.map (fun p => lookupA p.1.userRooms "event-room_x")
        = some (some ["alice"]) :=
  ⟨rfl, rfl, rfl⟩

/-- C3 counterexample: `createRoom` is not idempotent.  After creating room
`r` with metadata `k ↦ 1`, a second `createRoom` for `r` with `k ↦ 2`
leaves the stored metadata equal to `k ↦ 2` (not `k ↦ 1`) and returns a
fresh record carrying `k ↦ 2`, not the existing record. -/
theorem createRoom_not_idempotent_cex :
    getRoom c3StoreOnce "r" = some ⟨"r", RoomType.PRIVATE, [("k", "1")]⟩
    ∧ getRoom c3Twice.1 "r" = some ⟨"r", RoomType.PRIVATE, [("k", "2")]⟩
    ∧ getRoom c3Twice.1 "r" ≠ some ⟨"r", RoomType.PRIVATE, [("k", "1")]⟩
    ∧ c3Twice.2 ≠ ⟨"r", RoomType.PRIVATE, [("k", "1")]⟩ :=
  ⟨rfl, rfl, by decide, by decide⟩

/-- C3 amended: `createRoom` unconditionally overwrites.  A second
`createRoom` call for an existing roomId stores and returns a fresh record
carrying the second call's type and metadata, regardless of the prior
state. -/
theorem createRoom_overwrites (S : RedisStore) (ty1 ty2 : RoomType) (roomId : String)
    (m1 m2 : Option (List (String × String))) :
    getRoom (createRoom (createRoom S ty1 roomId m1).1 ty2 roomId m2).1 roomId
      = some ⟨roomId, ty2, m2.getD []⟩
    ∧ (createRoom (createRoom S ty1 roomId m1).1 ty2 roomId m2).2
      = ⟨roomId, ty2, m2.getD []⟩ := by
  refine ⟨?_, rfl⟩
  simp [createRoom, getRoom, saveRoom, lookupA_setA_self]

/-- C4: `userExistsById` does not reflect live connections.  After
registering a connection for `alice` (her connection set is non-empty),
`userExistsById("alice")` is still false: it checks the plain key
`user:alice`, which no code path ever writes, rather than the
`user:alice:connections` set. -/
theorem userExistsById_never_sees_connections :
    (getAllUserConnections c4Store "alice").map (fun conn => conn.socketId) = ["s1"]
    ∧ userExistsById c4Store "alice" = false :=
  ⟨rfl, rfl⟩

/-- C5 counterexample: in a state where `event-room_x` exists and user
`alice` has the active connection `sock1` (resolveActiveConnection returns
it, and `sock1` is connected on the transport), `addUserToRoom` completes
without joining `sock1` to anything: it looks the socket up under the key
`"alice"` — the userId — instead of the resolved connection id. -/
theorem ws_addUserToRoom_cex :
    getSocketFromUserId c5Store "alice" = some "sock1"
    ∧ roomExistsById c5Store "event-room_x" = true
    ∧ (wsAddUserToRoom c5Store ioC5 "event-room_x" "alice").toOption.map
        (fun io2 => socketJoinedRooms io2 "sock1") = some [] :=
  ⟨rfl, rfl, rfl⟩

/-- C5 amended: `addUserToRoom` fails with RoomNotFound for a nonexistent
room; for an existing room it joins the transport socket whose id equals
the userId when such a socket is connected, and otherwise completes without
error and without joining anything — it never consults the user's resolved
active connection. -/
theorem wsAddUserToRoom_actual (S : RedisStore) (io : IoServer) (roomId userId : String) :
    (roomExistsById S roomId = false →
      wsAddUserToRoom S io roomId userId
        = .error ("Room " ++ roomId ++ " does not exist"))
    ∧ (roomExistsById S roomId = true → ∃ io2,
        wsAddUserToRoom S io roomId userId = .ok io2
        ∧ socketJoinedRooms io2 userId =
            (if userId ∈ io.connectedSockets then saddL (socketJoinedRooms io userId) roomId
             else socketJoinedRooms io userId)
        ∧ ∀ s, s ≠ userId → socketJoinedRooms io2 s = socketJoinedRooms io s) := by
  constructor
  · intro h
    simp [wsAddUserToRoom, h]
  · intro h
    by_cases hm : userId ∈ io.connectedSockets
    · have hany : io.connectedSockets.any (fun s => decide (s = userId)) = true :=
        (any_eq_mem _ _).mpr hm
      refine ⟨joinRoom io userId roomId, ?_, ?_, ?_⟩
      · simp [wsAddUserToRoom, h, hany]
      · rw [socketJoinedRooms_joinRoom_self, if_pos hm]
      · intro s hs
        exact socketJoinedRooms_joinRoom_ne io userId roomId s hs
    · have hany : io.connectedSockets.any (fun s => decide (s = userId)) = false := by
        rw [Bool.eq_false_iff]
        intro hc
        exact hm ((any_eq_mem _ _).mp hc)
      refine ⟨io, ?_, ?_, fun s _ => rfl⟩
      · simp [wsAddUserToRoom, h, hany]
      · rw [if_neg hm]

/-- Witness for the C5 amended theorem, applied at the concrete
counterexample state: the room exists, `alice` is not a connected socket
id, and the call succeeds having joined her to nothing. -/
theorem wsAddUserToRoom_actual_witness :
    ∃ io2, wsAddUserToRoom c5Store ioC5 "event-room_x" "alice" = .ok io2
      ∧ socketJoinedRooms io2 "alice" = [] := by
  obtain ⟨io2, h1, h2, _⟩ :=
    (wsAddUserToRoom_actual c5Store ioC5 "event-room_x" "alice").2 (by decide)
  refine ⟨io2, h1, ?_⟩
  rw [h2, if_neg (by decide)]
  rfl

/-- C6: `removeUserConnection` is not frame-preserving and not a no-op on
absent connections.  With user `a` holding the single live connection `c1`,
calling `removeUserConnection("a", "c2")` for the absent `c2` leaves `c1`
in `a`'s set but DELETES `c1`'s reverse-index entry: after the guarded
removal branch, the code resolves the user's most recent remaining socket
and unconditionally deletes that socket's `socket:{id}:user` key. -/
theorem removeUserConnection_not_noop_when_absent :
    getUserConnection c6Store "a" "c2" = none
    ∧ getUserIdFromSocket c6Store "c1" = some "a"
    ∧ (getAllUserConnections (removeUserConnection c6Store "a" "c2") "a").map
        (fun conn => conn.socketId) = ["c1"]
    ∧ getUserIdFromSocket (removeUserConnection c6Store "a" "c2") "c1" = none :=
  ⟨rfl, rfl, rfl, rfl⟩

/-- C7: per-message queue dispatch discipline.  With the subscribe client
present: a failed or empty read is negatively acknowledged (and not
propagated — the callback returns a decision rather than throwing); a body
that fails to parse is negatively acknowledged; a parsed message whose
handler resolves is acknowledged; a parsed message whose handler rejects is
negatively acknowledged; and each message of a subscription is decided by
its own payload and handler result alone, independent of the other messages
on the subscription. -/
theorem queue_dispatch_discipline {J E D : Type} (parseJson : String → Option J)
    (handler : J → Except E D) (body : String) (m : J) (e : E) (d : D) :
    onQueueMessage true .failed parseJson handler = some .nack
    ∧ onQueueMessage true (.ok "") parseJson handler = some .nack
    ∧ (body ≠ "" → parseJson body = none →
        onQueueMessage true (.ok body) parseJson handler = some .nack)
    ∧ (body ≠ "" → parseJson body = some m → handler m = .ok d →
        onQueueMessage true (.ok body) parseJson handler = some .ack)
    ∧ (body ≠ "" → parseJson body = some m → handler m = .error e →
        onQueueMessage true (.ok body) parseJson handler = some .nack)
    ∧ (∀ (reads : List ReadResult) (i : Nat) (hi : i < reads.length)
         (hj : i < (processQueue true parseJson handler reads).length),
         (processQueue true parseJson handler reads).get ⟨i, hj⟩
           = onQueueMessage true (reads.get ⟨i, hi⟩) parseJson handler) := by
  refine ⟨rfl, rfl, ?_, ?_, ?_, ?_⟩
  · intro h1 h2
    simp [onQueueMessage, h1, h2]
  · intro h1 h2 h3
    simp [onQueueMessage, h1, h2, h3]
  · intro h1 h2 h3
    simp [onQueueMessage, h1, h2, h3]
  · intro reads i hi hj
    exact processQueue_get true parseJson handler reads i hi hj

/-- Witness for C7 at concrete inputs: a parse-failing body is nacked, a
successfully handled body is acked, a failed read is nacked. -/
theorem queue_dispatch_discipline_witness :
    onQueueMessage true (.ok "good") wParse wHandler = some .ack
    ∧ onQueueMessage true (.ok "bad") wParse wHandler = some .nack
    ∧ onQueueMessage true .failed wParse wHandler = some .nack := by
  have hg := queue_dispatch_discipline wParse wHandler "good" 0 "e" ()
  have hb := queue_dispatch_discipline wParse wHandler "bad" 0 "e" ()
  exact ⟨hg.2.2.2.1 (by decide) (by rfl) (by rfl),
         hb.2.2.1 (by decide) (by rfl), hg.1⟩

/-- C8: the best-effort connect conclusion fails on the code.  Starting
from the store where `event-room_x` exists and `alice` was made a member
through `RoomService.addUserToRoom` (the membership record is present,
third component), the register flow for `alice` on socket `sock9` joins the
socket to ZERO rooms: `getUserRooms` scans key NAMES for the userId as a
substring, and `user:event-room_x:rooms` does not contain `alice`, so the
existing membership room is never attempted even though it exists. -/
theorem bestEffortConnect_misses_existing_membership :
    roomWithAlice.toOption.map (fun p =>
      let out := handleRegister p.1 p.2 "sock9" "alice" "srv" 10
      (roomExistsById out.1 "event-room_x",
       lookupA out.1.userRooms "event-room_x",
       socketJoinedRooms out.2 "sock9"))
      = some (true, some ["alice"], []) :=
  rfl

/-- C9: `generatePrivateRoomId` is pure and symmetric: swapping the two ids
yields the same room id, and the result is the PRIVATE namespace prefix
concatenated with the two ids in ascending order joined by an underscore. -/
theorem generatePrivateRoomId_symm (a b : String) :
    generatePrivateRoomId a b = generatePrivateRoomId b a
    ∧ (strLtJS b a = false →
        generatePrivateRoomId a b = roomPrefixPrivate ++ (a ++ "_" ++ b))
    ∧ (strLtJS a b = false →
        generatePrivateRoomId a b = roomPrefixPrivate ++ (b ++ "_" ++ a)) := by
  refine ⟨?_, ?_, ?_⟩
  · unfold generatePrivateRoomId jsSortPair
    cases hba : strLtJS b a with
    | true =>
      have hab : strLtJS a b = false := charListLt_asymm _ _ hba
      rw [hab]
      rfl
    | false =>
      cases hab : strLtJS a b with
      | true => rfl
      | false =>
        have hl : a.toList = b.toList := charListLt_conn _ _ hab hba
        have hEq : a = b := by
          cases a with
          | mk da =>
            cases b with
            | mk db => exact congrArg String.mk (by simpa [String.toList] using hl)
        subst hEq
        rfl
  · intro h
    unfold generatePrivateRoomId jsSortPair
    rw [h]
    rfl
  · intro h
    unfold generatePrivateRoomId jsSortPair
    cases hba : strLtJS b a with
    | true => rfl
    | false =>
      have hl : a.toList = b.toList := charListLt_conn _ _ h hba
      have hEq : a = b := by
        cases a with
        | mk da =>
          cases b with
          | mk db => exact congrArg String.mk (by simpa [String.toList] using hl)
      subst hEq
      rfl

/-- Witness for C9 at `alice`, `bob`: symmetry holds and the id is the
sorted, underscore-joined pair behind the PRIVATE prefix. -/
theorem generatePrivateRoomId_symm_witness :
    generatePrivateRoomId "alice" "bob" = generatePrivateRoomId "bob" "alice"
    ∧ generatePrivateRoomId "alice" "bob"
        = roomPrefixPrivate ++ ("alice" ++ "_" ++ "bob") := by
  have h := generatePrivateRoomId_symm "alice" "bob"
  exact ⟨h.1, h.2.1 (by rfl)⟩

/-- C10: a chat envelope with no roomId — even with a destId present — is
handled by returning successfully with no delivery, so the enclosing
dispatch acknowledges the message: it is dropped, not redelivered and not
routed to destId. -/
theorem handleChatMessage_drops_missing_roomId (S : RedisStore)
    (channel body : String) (parseJson : String → Option ChatMessage)
    (message : ChatMessage) (hbody : body ≠ "")
    (hparse : parseJson body = some message) (hroom : message.roomId = none) :
    handleChatMessage S channel message = .ok []
    ∧ onQueueMessage true (.ok body) parseJson
        (fun m => handleChatMessage S channel m) = some .ack := by
  have h1 : handleChatMessage S channel message = .ok [] := by
    simp [handleChatMessage, optFalsy, hroom]
  refine ⟨h1, ?_⟩
  simp [onQueueMessage, hbody, hparse, h1]

/-- Witness for C10: the concrete roomless envelope (destId `bob`) is
dropped with an acknowledgment. -/
theorem handleChatMessage_drops_missing_roomId_witness :
    handleChatMessage emptyStore "new-message" msgNoRoom = .ok []
    ∧ onQueueMessage true (.ok "m") parseNoRoom
        (fun m => handleChatMessage emptyStore "new-message" m) = some .ack :=
  handleChatMessage_drops_missing_roomId emptyStore "new-message" "m" parseNoRoom
    msgNoRoom (by decide) (by rfl) (by rfl)

end Jamify
